import Mathlib

/-!
# Verification of the zentropy-mice survey ETL pipeline

Shallow embedding of `src/notebooks/01_etl_encuesta_transform.py`.

Modelling conventions:
* pandas cells are `Option` values: `none` models `NaN`/missing.
* float64 numerics are modelled as exact rationals `ℚ`.
* a DataFrame column is a `List` of cells; a record (row) is a structure.
* pandas `==` against a missing value is `False`, and `!=` against a
  missing value is `True`; with `Option` cells, `r.f = some v` and
  `r.f ≠ some v` have exactly these semantics.
* `fillna(0)` is `Option.getD · 0`.
-/

/-- `CONFIG["complete_survey_last_page"]`. -/
def complete_survey_last_page : ℚ := 7

/-- `CONFIG["excluded_accommodation"]`. -/
def excluded_accommodation : String := "Ninguno, me desplacé desde mi lugar de residencia"

/-- `CONFIG["visitor_type1_categories"]`. -/
def visitor_type1_categories : List String := ["International", "National", "Local"]

/-- `CONFIG["visitor_type2_categories"]`. -/
def visitor_type2_categories : List String :=
  ["Eco-conscious", "Standard", "Young professional/student"]

/-- `CONFIG["spain_code"]`. -/
def spain_code : String := "España"

/-- `CONFIG["valencia_code"]`. -/
def valencia_code : String := "Valencia/València"

/-- `CONFIG["foreign_code"]`. -/
def foreign_code : String := "Extranjero"

/-- One survey response, restricted to the columns the verified stages read.
Every cell is nullable, as in the source DataFrame. -/
structure SurveyRow where
  ultimaPagina : Option ℚ := none
  alojamiento : Option String := none
  residencia : Option String := none
  pais : Option String := none
  provincia : Option String := none
  uso_bus_congreso : Option ℚ := none
  uso_metro_congreso : Option ℚ := none
  uso_taxi_congreso : Option ℚ := none
  uso_coche_congreso : Option ℚ := none
  uso_bici_congreso : Option ℚ := none
  uso_pie_congreso : Option ℚ := none
  deriving DecidableEq, Repr

/-- `classify_visitor_type1(row)`: geographic classification.
`np.nan` (unclassified) is modelled as `none`.
pandas semantics of the row accesses: `row["residencia"] == code` is false on
a missing cell, `pd.notna(row["pais"]) and row["pais"] != code` requires a
present, different value. -/
def classify_visitor_type1 (row : SurveyRow) : Option String :=
  if row.residencia = some foreign_code ∨
      (row.pais.isSome ∧ row.pais ≠ some spain_code) then
    some "International"
  else if row.residencia = some spain_code ∧ row.provincia = some valencia_code then
    some "Local"
  else if row.residencia = some spain_code then
    some "National"
  else
    none

/-- `classify_visitor_type2(row)`: transport-pattern classification, a pure
function of the three derived congress-context buckets read from the row.
Python's `max(public, car, walk_bike)` is the value `max public (max car walk_bike)`;
the source's local `max_val` binding is inlined. -/
def classify_visitor_type2 (public car walk_bike : ℚ) : String :=
  if public = 0 ∧ car = 0 ∧ walk_bike = 0 then
    "No transport reported"
  else if walk_bike = max public (max car walk_bike) then "Eco-conscious"
  else if public = max public (max car walk_bike) then "Young professional/student"
  else "Standard"

/-- `create_transport_variables(df, "congreso")`, public bucket:
`uso_bus.fillna(0) + uso_metro.fillna(0)`. -/
def public_transport_use_congreso (row : SurveyRow) : ℚ :=
  row.uso_bus_congreso.getD 0 + row.uso_metro_congreso.getD 0

/-- `create_transport_variables(df, "congreso")`, car bucket:
`uso_taxi.fillna(0) + uso_coche.fillna(0)`. -/
def car_use_congreso (row : SurveyRow) : ℚ :=
  row.uso_taxi_congreso.getD 0 + row.uso_coche_congreso.getD 0

/-- `create_transport_variables(df, "congreso")`, active bucket:
`uso_bici.fillna(0) + uso_pie.fillna(0)`. -/
def walk_bike_use_congreso (row : SurveyRow) : ℚ :=
  row.uso_bici_congreso.getD 0 + row.uso_pie_congreso.getD 0

/-- `df_filtered["visitor_type_2"]`: classifier 2 applied to the derived
congress-context buckets of a row. -/
def visitor_type_2_of (row : SurveyRow) : String :=
  classify_visitor_type2 (public_transport_use_congreso row) (car_use_congreso row)
    (walk_bike_use_congreso row)

/-- Section 5 of the notebook:
`df[df["Última página"] == CONFIG["complete_survey_last_page"]]` followed by
`df_filtered[df_filtered["alojamiento"] != CONFIG["excluded_accommodation"]]`. -/
def survey_filter (df : List SurveyRow) : List SurveyRow :=
  (df.filter (fun r => r.ultimaPagina = some complete_survey_last_page)).filter
    (fun r => r.alojamiento ≠ some excluded_accommodation)

/-- A raw spreadsheet cell of a shopping-quantity column, as seen by
`pd.to_numeric(col, errors="coerce")`: it is missing, a value coercible to a
number (numbers and numeric strings alike, the coerced value recorded), or a
non-coercible text. -/
inductive RawCell where
  | missing : RawCell
  | num (q : ℚ) : RawCell
  | text (s : String) : RawCell
  deriving DecidableEq, Repr

/-- `pd.to_numeric(·, errors="coerce")` on one cell: non-coercible values
become `NaN`. -/
def to_numeric_coerce (c : RawCell) : Option ℚ :=
  match c with
  | .missing => none
  | .num q => some q
  | .text _ => none

/-- `.astype(int)` on one float value: truncation toward zero. -/
def truncToInt (q : ℚ) : ℤ := Int.tdiv q.num q.den

/-- `convert_shopping_to_numeric`, per cell:
`pd.to_numeric(df[col], errors="coerce").fillna(0).astype(int)`. -/
def convert_shopping_cell (c : RawCell) : ℤ :=
  truncToInt ((to_numeric_coerce c).getD 0)

/-- The part of an input table `validate_data` inspects: the column-name list
and the cells of the `"Última página"` column (meaningful when that column is
present). -/
structure DataTable where
  cols : List String
  ultimaPagina : List (Option ℚ)
  deriving DecidableEq, Repr

/-- `required_cols` of `validate_data`. -/
def required_cols : List String :=
  ["Última página", "alojamiento", "residencia", "pais", "provincia", "noches_valencia"]

/-- The failure modes of `validate_data` (each an `AssertionError` in the
source, carrying the data interpolated into its message). -/
inductive ValError where
  | missingCols (cols : List String) : ValError
  | noData : ValError
  | badMax (m : ℚ) : ValError
  deriving DecidableEq, Repr

/-- `df["Última página"].max()`: pandas `max` skips missing cells and is `NaN`
(here `none`) when no value is present. -/
def ultima_max (df : DataTable) : Option ℚ :=
  match df.ultimaPagina.filterMap id with
  | [] => none
  | x :: xs => some (xs.foldl max x)

/-- `validate_data(df)`: collects every missing required column into one
error, then asserts `df["Última página"].notna().any()`, then asserts
`df["Última página"].max() <= 10`. -/
def validate_data (df : DataTable) : Except ValError Unit :=
  let missing := required_cols.filter (fun c => ¬ c ∈ df.cols)
  if missing ≠ [] then
    Except.error (ValError.missingCols missing)
  else
    match ultima_max df with
    | none => Except.error ValError.noData
    | some m => if m ≤ 10 then Except.ok () else Except.error (ValError.badMax m)

/-- numpy/pandas `round` to an integer: round half to even. -/
def round_half_even (q : ℚ) : ℤ :=
  if Int.fract q = 1 / 2 then (if 2 ∣ ⌊q⌋ then ⌊q⌋ else ⌊q⌋ + 1) else round q

/-- pandas `.round(2)`: round half to even at the second decimal. -/
def round2 (q : ℚ) : ℚ := (round_half_even (q * 100) : ℚ) / 100

/-- The per-record view the aggregator needs: the `visitor_type_1` cell
(nullable: `classify_visitor_type1` can return missing) and the
`visitor_type_2` cell (always a string, see `visitor_type_2_of`). -/
abbrev ClassifiedRec := Option String × String

/-- The `(visitor_type_1, visitor_type_2)` pairs that take part in
`df.groupby(["visitor_type_1", "visitor_type_2"])`: pandas drops rows whose
group key contains a missing value. -/
def classifiedPairs (recs : List ClassifiedRec) : List (String × String) :=
  recs.filterMap (fun r =>
    match r.1 with
    | some t1 => some (t1, r.2)
    | none => none)

/-- The distinct group keys of the aggregation (pandas sorts group keys; the
claims checked here are insensitive to row order, so first-occurrence order is
used). -/
def summary_keys (recs : List ClassifiedRec) : List (String × String) :=
  (classifiedPairs recs).dedup

/-- `count_visitors` of one group: its group size. -/
def countPair (recs : List ClassifiedRec) (k : String × String) : ℕ :=
  (classifiedPairs recs).count k

/-- `df["visitor_type_1"].value_counts()[t1]`: occurrences of `t1` among the
non-missing `visitor_type_1` cells. -/
def type1_count (recs : List ClassifiedRec) (t1 : String) : ℕ :=
  (recs.filterMap Prod.fst).count t1

/-- `total_visitors = df.shape[0]`: all retained records, the unclassified
ones included. -/
def total_visitors (recs : List ClassifiedRec) : ℕ := recs.length

/-- `summary["pct_visitor_type_1"]`:
`(summary["visitor_type_1"].map(type1_counts) / total_visitors * 100).round(2)`. -/
def pct_visitor_type_1 (recs : List ClassifiedRec) (t1 : String) : ℚ :=
  round2 ((type1_count recs t1 : ℚ) / (total_visitors recs : ℚ) * 100)

/-- `summary["pct_visitor_type_2"]`: within each `visitor_type_1` group,
`count_visitors / sum(count_visitors) * 100`, rounded to 2 decimals. -/
def pct_visitor_type_2 (recs : List ClassifiedRec) (k : String × String) : ℚ :=
  round2 ((countPair recs k : ℚ) /
    (((summary_keys recs).filter (fun k2 => k2.1 = k.1)).map
      (fun k2 => (countPair recs k2 : ℚ))).sum * 100)

/-- One row of the aggregate (summary) table. The identifier, count and
percentage columns are explicit; `metrics` holds the remaining metric columns
(group means etc.) in a fixed schema order, each cell nullable. -/
structure SummaryRow where
  visitor_type_1 : String
  visitor_type_2 : String
  count_visitors : Option ℚ
  pct_visitor_type_1 : Option ℚ
  pct_visitor_type_2 : Option ℚ
  metrics : List (Option ℚ)
  deriving DecidableEq, Repr

/-- The group key of a summary row. -/
def SummaryRow.key (r : SummaryRow) : String × String :=
  (r.visitor_type_1, r.visitor_type_2)

/-- `calculate_summary_metrics`, restricted to the key, count and percentage
columns (the metric columns are group means whose values none of the checked
claims constrain on non-empty groups; the schema keeps them as an opaque
`metrics` list, empty here). -/
def calculate_summary (recs : List ClassifiedRec) : List SummaryRow :=
  (summary_keys recs).map (fun k =>
    { visitor_type_1 := k.1
      visitor_type_2 := k.2
      count_visitors := some (countPair recs k : ℚ)
      pct_visitor_type_1 := some (pct_visitor_type_1 recs k.1)
      pct_visitor_type_2 := some (pct_visitor_type_2 recs k)
      metrics := [] })

/-- `itertools`-style product of two lists, row-major, as
`pd.MultiIndex.from_product` enumerates it. -/
def listProd (xs : List String) (ys : List String) : List (String × String) :=
  xs.foldr (fun x acc => ys.map (fun y => (x, y)) ++ acc) []

/-- `all_combinations` of `complete_visitor_matrix`: the Cartesian product of
the two configured category lists. -/
def all_combinations : List (String × String) :=
  listProd visitor_type1_categories visitor_type2_categories

/-- One output row of the reindex: the summary row with key `k` when it
exists (`reindex` keeps its cells; the later `fillna(0)` calls rewrite the
count and the two percentage cells), otherwise a fresh row that is missing in
every non-index column before the three `fillna(0)` calls; `nMetrics` is the
number of metric columns of the table's schema. -/
def completedRow (nMetrics : ℕ) (summary : List SummaryRow) (k : String × String) :
    SummaryRow :=
  match summary.find? (fun r => r.visitor_type_1 = k.1 ∧ r.visitor_type_2 = k.2) with
  | some r =>
      { r with
        count_visitors := some (r.count_visitors.getD 0)
        pct_visitor_type_1 := some (r.pct_visitor_type_1.getD 0)
        pct_visitor_type_2 := some (r.pct_visitor_type_2.getD 0) }
  | none =>
      { visitor_type_1 := k.1
        visitor_type_2 := k.2
        count_visitors := some 0
        pct_visitor_type_1 := some 0
        pct_visitor_type_2 := some 0
        metrics := List.replicate nMetrics none }

/-- `complete_visitor_matrix(summary)`: reindex against `all_combinations`,
then `fillna(0)` on `count_visitors`, `pct_visitor_type_1` and
`pct_visitor_type_2`. -/
def complete_visitor_matrix (nMetrics : ℕ) (summary : List SummaryRow) :
    List SummaryRow :=
  all_combinations.map (completedRow nMetrics summary)

/-- The final aggregate table of the pipeline for the columns modelled here:
`complete_visitor_matrix(calculate_summary_metrics(df_filtered))`. -/
def finalTable (recs : List ClassifiedRec) : List SummaryRow :=
  complete_visitor_matrix 0 (calculate_summary recs)

/-- Sum of the `pct_visitor_type_1` column over the rows with a non-zero
visitor count. -/
def sumPct1Nonzero (rows : List SummaryRow) : ℚ :=
  ((rows.filter (fun r => r.count_visitors.getD 0 ≠ 0)).map
    (fun r => r.pct_visitor_type_1.getD 0)).sum

/-- The distinct classified `visitor_type_1` values, each once. -/
def type1_values (recs : List ClassifiedRec) : List String :=
  (recs.filterMap Prod.fst).dedup

/-- A column-oriented view of the summary table for the accommodation
consolidation stage: column name ↦ list of nullable cells. -/
abbrev ColTable := List (String × List (Option ℚ))

/-- First column with the given name, if any (`name in summary.columns` /
`summary[name]`). -/
def getColVals (t : ColTable) (name : String) : Option (List (Option ℚ)) :=
  match t with
  | [] => none
  | (n, v) :: rest => if n = name then some v else getColVals rest name

/-- Cell of column `name` at row `i`. -/
def getCell (t : ColTable) (name : String) (i : ℕ) : Option ℚ :=
  match getColVals t name with
  | none => none
  | some col => (col.get? i).join

/-- `summary[new_col] = vals`: overwrite the column when present (column
names are unique in a DataFrame, so replacing the first match suffices), else
append it. -/
def setCol (t : ColTable) (name : String) (vals : List (Option ℚ)) : ColTable :=
  match t with
  | [] => [(name, vals)]
  | (n, v) :: rest =>
      if n = name then (name, vals) :: rest else (n, v) :: setCol rest name vals

/-- `groupings` of `group_accommodation_categories`, in the source's dict
order. -/
def groupings : List (String × List String) :=
  [("avg_nights_Airbnb",
    ["avg_nights_Alojamiento local sin coste",
     "avg_nights_Apartamento de alquiler (AirBnb)"]),
   ("avg_nights_Hotel 3 estrellas", ["avg_nights_Hotel 3 estrellas"]),
   ("avg_nights_Hotel 4 estrellas", ["avg_nights_Hotel 4 estrellas"]),
   ("avg_nights_Hotel 5 estrellas", ["avg_nights_Hotel 5 estrellas"]),
   ("avg_nights_Pension o Hostal",
    ["avg_nights_Hotel 2 estrellas", "avg_nights_Pensión o hostal"])]

/-- Row-wise `DataFrame.mean(axis=1)`: unweighted mean of the non-missing
cells, missing when every cell is missing. -/
def rowMean (cells : List (Option ℚ)) : Option ℚ :=
  let xs := cells.filterMap id
  if xs.isEmpty then none else some (xs.sum / (xs.length : ℚ))

/-- The column `group_accommodation_categories` assigns for one grouping,
reading table `t`: row-wise mean over the source columns present in `t`, or an
all-missing column when none is present. -/
def groupedColumn (nRows : ℕ) (t : ColTable) (sources : List String) :
    List (Option ℚ) :=
  let existing := sources.filter (fun c => (getColVals t c).isSome)
  if existing.isEmpty then
    List.replicate nRows none
  else
    (List.range nRows).map (fun i => rowMean (existing.map (fun c => getCell t c i)))

/-- One loop iteration of `group_accommodation_categories`:
`summary[new_col] = summary[existing_cols].mean(axis=1)` when some source
column exists, else `summary[new_col] = np.nan`. -/
def applyGrouping (nRows : ℕ) (t : ColTable) (g : String × List String) : ColTable :=
  setCol t g.1 (groupedColumn nRows t g.2)

/-- `group_accommodation_categories(summary)`: sequential assignment of the
five consolidated bucket columns; `nRows` is the table's row count. -/
def group_accommodation_categories (nRows : ℕ) (t : ColTable) : ColTable :=
  groupings.foldl (applyGrouping nRows) t

/-- A concrete filtered-and-classified record list used as a counterexample
input: two Local respondents in different transport groups plus one
unclassified respondent. -/
def cexRecs : List ClassifiedRec :=
  [(some "Local", "Standard"), (some "Local", "Eco-conscious"), (none, "Standard")]

/-- A concrete record list in which every record is classified, with one
respondent in each of two distinct Taxonomy-1 groups. -/
def w4recs : List ClassifiedRec :=
  [(some "International", "Standard"), (some "Local", "Eco-conscious")]

/-- A concrete record list containing one respondent classified
"No transport reported". -/
def w5recs : List ClassifiedRec := [(some "Local", "No transport reported")]

/-- An input table with every required column present whose completion-page
column holds no non-missing value. -/
def allMissingTable : DataTable := ⟨required_cols, [none]⟩

/-- An input table with every required column present, some completion-page
values observed, and maximum 7. -/
def goodTable : DataTable := ⟨required_cols, [some 7, none, some 3]⟩

/-- A record with residence Spain, province Valencia and country France. -/
def franceRow : SurveyRow :=
  { residencia := some spain_code, provincia := some valencia_code, pais := some "France" }

/-- The first consolidation grouping (the Airbnb bucket). -/
def airbnbGrouping : String × List String :=
  ("avg_nights_Airbnb",
   ["avg_nights_Alojamiento local sin coste",
    "avg_nights_Apartamento de alquiler (AirBnb)"])

/- ### Helper lemmas -/

theorem abs_round_half_even_sub (q : ℚ) : |(round_half_even q : ℚ) - q| ≤ 1 / 2 := by
  unfold round_half_even
  split_ifs with h h2
  · rw [Int.fract] at h
    rw [abs_le]
    constructor <;> nlinarith [h]
  · rw [Int.fract] at h
    push_cast
    rw [abs_le]
    constructor <;> nlinarith [h]
  · have := abs_sub_round q
    rw [abs_sub_comm] at this
    exact this

theorem abs_round2_sub (q : ℚ) : |round2 q - q| ≤ 1 / 200 := by
  unfold round2
  have h := abs_round_half_even_sub (q * 100)
  rw [show (round_half_even (q * 100) : ℚ) / 100 - q =
      ((round_half_even (q * 100) : ℚ) - q * 100) / 100 by ring]
  rw [abs_div]
  rw [show |(100 : ℚ)| = 100 by norm_num]
  linarith [h]

/- ### Claim theorems -/

/-- C2: Classifier-2 on the derived congress buckets returns
"No transport reported" exactly when all three buckets are 0; otherwise it
returns "Eco-conscious" exactly when active equals the maximum of the three,
else "Young professional/student" exactly when public equals the maximum,
else "Standard"; in particular (public, car, active) = (5, 5, 5) gives
"Eco-conscious" and (5, 5, 0) gives "Young professional/student". -/
theorem claim_C2_tiebreak (p c a : ℚ) :
    (classify_visitor_type2 p c a = "No transport reported" ↔ p = 0 ∧ c = 0 ∧ a = 0)
    ∧ (¬(p = 0 ∧ c = 0 ∧ a = 0) →
        (classify_visitor_type2 p c a = "Eco-conscious" ↔ a = max p (max c a))
        ∧ (classify_visitor_type2 p c a = "Young professional/student" ↔
            a ≠ max p (max c a) ∧ p = max p (max c a))
        ∧ (classify_visitor_type2 p c a = "Standard" ↔
            a ≠ max p (max c a) ∧ p ≠ max p (max c a)))
    ∧ classify_visitor_type2 5 5 5 = "Eco-conscious"
    ∧ classify_visitor_type2 5 5 0 = "Young professional/student" := by
  refine ⟨?_, ?_, by decide, by decide⟩
  · unfold classify_visitor_type2
    split_ifs with h1
    · exact iff_of_true rfl h1
    · exact iff_of_false (by decide) h1
    · exact iff_of_false (by decide) h1
    · exact iff_of_false (by decide) h1
  · intro hnz
    unfold classify_visitor_type2
    rw [if_neg hnz]
    split_ifs with h2 h3
    · exact ⟨iff_of_true rfl h2,
        iff_of_false (by decide) (fun hh => hh.1 h2),
        iff_of_false (by decide) (fun hh => hh.1 h2)⟩
    · exact ⟨iff_of_false (by decide) h2,
        iff_of_true rfl ⟨h2, h3⟩,
        iff_of_false (by decide) (fun hh => hh.2 h3)⟩
    · exact ⟨iff_of_false (by decide) h2,
        iff_of_false (by decide) (fun hh => h3 hh.2),
        iff_of_true rfl ⟨h2, h3⟩⟩

/-- C2, witness: the tie-break characterization applied at the concrete input
(5, 5, 0). -/
theorem claim_C2_tiebreak_witness :
    ¬((5 : ℚ) = 0 ∧ (5 : ℚ) = 0 ∧ (0 : ℚ) = 0)
    ∧ (classify_visitor_type2 5 5 0 = "Young professional/student" ↔
        (0 : ℚ) ≠ max 5 (max 5 0) ∧ (5 : ℚ) = max 5 (max 5 0)) :=
  ⟨by norm_num, ((claim_C2_tiebreak 5 5 0).2.1 (by norm_num)).2.1⟩

/-- C3: Classifier-1 is a first-match-wins priority chain: International iff
rule 1 fires (foreign residence, or a present country other than Spain);
Local iff rule 1 fails and residence is Spain with province Valencia;
National iff rules 1–2 fail and residence is Spain; unclassified (missing)
iff no rule fires. -/
theorem claim_C3_priority_chain (r : SurveyRow) :
    (classify_visitor_type1 r = some "International" ↔
      r.residencia = some foreign_code ∨ (r.pais.isSome ∧ r.pais ≠ some spain_code))
    ∧ (classify_visitor_type1 r = some "Local" ↔
      ¬(r.residencia = some foreign_code ∨ (r.pais.isSome ∧ r.pais ≠ some spain_code))
      ∧ r.residencia = some spain_code ∧ r.provincia = some valencia_code)
    ∧ (classify_visitor_type1 r = some "National" ↔
      ¬(r.residencia = some foreign_code ∨ (r.pais.isSome ∧ r.pais ≠ some spain_code))
      ∧ ¬(r.residencia = some spain_code ∧ r.provincia = some valencia_code)
      ∧ r.residencia = some spain_code)
    ∧ (classify_visitor_type1 r = none ↔
      ¬(r.residencia = some foreign_code ∨ (r.pais.isSome ∧ r.pais ≠ some spain_code))
      ∧ r.residencia ≠ some spain_code) := by
  unfold classify_visitor_type1
  split_ifs with h1 h2 h3 <;> simp_all

/-- C3, witness: a record with residence Spain, province Valencia and country
France satisfies rule 1, hence classifies as International (rule 1 precedes
rule 2). -/
theorem claim_C3_priority_chain_witness :
    (franceRow.residencia = some foreign_code
      ∨ (franceRow.pais.isSome ∧ franceRow.pais ≠ some spain_code))
    ∧ classify_visitor_type1 franceRow = some "International" :=
  ⟨by decide, (claim_C3_priority_chain franceRow).1.mpr (by decide)⟩

/-- C9: the retention filter (completion page = 7 and accommodation different
from the excluded sentinel) is idempotent: filtering an already-filtered
table yields the identical table. -/
theorem claim_C9_filter_idempotent (df : List SurveyRow) :
    survey_filter (survey_filter df) = survey_filter df := by
  have key : ∀ l : List SurveyRow, survey_filter l =
      l.filter (fun r => decide (r.alojamiento ≠ some excluded_accommodation) &&
        decide (r.ultimaPagina = some complete_survey_last_page)) := by
    intro l
    unfold survey_filter
    rw [List.filter_filter]
  simp only [key, List.filter_filter]
  apply List.filter_congr
  intro x _
  by_cases h1 : x.ultimaPagina = some complete_survey_last_page <;>
    by_cases h2 : x.alojamiento = some excluded_accommodation <;>
      simp [h1, h2]

/-- C10: Taxonomy-2 classification is total on every retained record: the
derived congress buckets treat missing raw counts as 0, so the classifier's
inputs are always defined and each record receives exactly one of the four
labels (the result is a string, never missing). -/
theorem claim_C10_type2_total (r : SurveyRow) :
    visitor_type_2_of r ∈
      ["Eco-conscious", "Standard", "Young professional/student", "No transport reported"] := by
  unfold visitor_type_2_of classify_visitor_type2
  split_ifs <;> decide

/-- C6, counterexample: the shopping conversion maps the coercible value -3
to -3, a negative integer, so the result is not always non-negative as the
claim states. -/
theorem claim_C6_counterexample : ¬ (0 ≤ convert_shopping_cell (RawCell.num (-3))) := by
  decide

/-- C6 (amended): the shopping conversion turns non-numeric or missing values
into 0 and always yields an integer (the result type); the result is
non-negative whenever the coerced numeric value is non-negative, but a
negative numeric input stays negative. -/
theorem claim_C6_shopping_conversion :
    convert_shopping_cell RawCell.missing = 0
    ∧ (∀ s, convert_shopping_cell (RawCell.text s) = 0)
    ∧ (∀ q : ℚ, 0 ≤ q → 0 ≤ convert_shopping_cell (RawCell.num q)) := by
  refine ⟨by decide, fun s => by show truncToInt ((none : Option ℚ).getD 0) = 0; decide, fun q hq => ?_⟩
  unfold convert_shopping_cell to_numeric_coerce truncToInt
  simp only [Option.getD_some]
  exact Int.tdiv_nonneg (Rat.num_nonneg.mpr hq) (Int.natCast_nonneg _)

/-- C6, witness: the conversion applied to the non-negative value 5/2 yields
a non-negative integer. -/
theorem claim_C6_shopping_conversion_witness :
    (0 : ℚ) ≤ 5 / 2 ∧ 0 ≤ convert_shopping_cell (RawCell.num (5 / 2)) :=
  ⟨by norm_num, claim_C6_shopping_conversion.2.2 (5 / 2) (by norm_num)⟩

/-- C7, counterexample: a table with every required column present whose
completion-page column holds no non-missing value is rejected by the
validator (its `notna().any()` assertion), while the claim as stated says
such a table is accepted. -/
theorem claim_C7_counterexample : validate_data allMissingTable ≠ Except.ok () := by
  have h : validate_data allMissingTable = Except.error ValError.noData := rfl
  rw [h]
  exact fun hc => Except.noConfusion hc

/-- C7 (amended): the validator fails with an error listing every missing
required column when any is absent; with all columns present it additionally
fails when the completion-page column has no non-missing value, fails when
the maximum observed completion-page value exceeds 10, and otherwise accepts
the table (returning without modifying it). -/
theorem claim_C7_validator (df : DataTable) :
    (required_cols.filter (fun c => ¬ c ∈ df.cols) ≠ [] →
      validate_data df =
        Except.error (ValError.missingCols (required_cols.filter (fun c => ¬ c ∈ df.cols))))
    ∧ (required_cols.filter (fun c => ¬ c ∈ df.cols) = [] → ultima_max df = none →
        validate_data df = Except.error ValError.noData)
    ∧ (∀ m, required_cols.filter (fun c => ¬ c ∈ df.cols) = [] → ultima_max df = some m →
        10 < m → validate_data df = Except.error (ValError.badMax m))
    ∧ (∀ m, required_cols.filter (fun c => ¬ c ∈ df.cols) = [] → ultima_max df = some m →
        m ≤ 10 → validate_data df = Except.ok ()) := by
  refine ⟨fun h => ?_, fun h1 h2 => ?_, fun m h1 h2 h3 => ?_, fun m h1 h2 h3 => ?_⟩
  · unfold validate_data
    rw [if_pos h]
  · unfold validate_data
    rw [if_neg (not_not_intro h1), h2]
  · unfold validate_data
    rw [if_neg (not_not_intro h1), h2]
    simp only [if_neg (not_le.mpr h3)]
  · unfold validate_data
    rw [if_neg (not_not_intro h1), h2]
    simp only [if_pos h3]

/-- C7, witness: the validator accepts a concrete table with all required
columns present and maximum observed completion page 7. -/
theorem claim_C7_validator_witness :
    required_cols.filter (fun c => ¬ c ∈ goodTable.cols) = []
    ∧ ultima_max goodTable = some 7
    ∧ (7 : ℚ) ≤ 10
    ∧ validate_data goodTable = Except.ok () :=
  ⟨by decide, by decide, by norm_num,
    (claim_C7_validator goodTable).2.2.2 7 (by decide) (by decide) (by norm_num)⟩

theorem key_completedRow (nMetrics : ℕ) (summary : List SummaryRow) (k : String × String) :
    (completedRow nMetrics summary k).key = k := by
  unfold completedRow
  cases h : summary.find? (fun r => r.visitor_type_1 = k.1 ∧ r.visitor_type_2 = k.2) with
  | none => cases k ; rfl
  | some r =>
      have hp := List.find?_some h
      simp only [decide_eq_true_eq] at hp
      cases k
      simp only [SummaryRow.key, hp.1, hp.2]

theorem mem_listProd_fst {xs ys : List String} {k : String × String}
    (h : k ∈ listProd xs ys) : k.1 ∈ xs := by
  induction xs with
  | nil => simp [listProd] at h
  | cons x t ih =>
      simp only [listProd, List.foldr_cons, List.mem_append, List.mem_map] at h
      rcases h with ⟨y, _, rfl⟩ | h
      · simp
      · exact List.mem_cons_of_mem x (ih h)

theorem mem_listProd_snd {xs ys : List String} {k : String × String}
    (h : k ∈ listProd xs ys) : k.2 ∈ ys := by
  induction xs with
  | nil => simp [listProd] at h
  | cons x t ih =>
      simp only [listProd, List.foldr_cons, List.mem_append, List.mem_map] at h
      rcases h with ⟨y, hy, rfl⟩ | h
      · exact hy
      · exact ih h

/-- C1: after matrix completion, the aggregate table has exactly one row per
(Taxonomy-1, Taxonomy-2) pair of the 3×3 Cartesian product of the configured
category lists — its key column equals the product list, which has no
duplicates and 9 entries — and every pair that had no row before completion
gets visitor count 0, both percentage columns 0, and every other metric
column missing. -/
theorem claim_C1_matrix_completion (nMetrics : ℕ) (summary : List SummaryRow) :
    (complete_visitor_matrix nMetrics summary).map SummaryRow.key = all_combinations
    ∧ (complete_visitor_matrix nMetrics summary).length = 9
    ∧ all_combinations.Nodup
    ∧ ∀ k ∈ all_combinations, (∀ r ∈ summary, r.key ≠ k) →
        ({ visitor_type_1 := k.1, visitor_type_2 := k.2, count_visitors := some 0,
           pct_visitor_type_1 := some 0, pct_visitor_type_2 := some 0,
           metrics := List.replicate nMetrics none } : SummaryRow)
          ∈ complete_visitor_matrix nMetrics summary := by
  refine ⟨?_, ?_, by decide, ?_⟩
  · unfold complete_visitor_matrix
    rw [List.map_map]
    have : ∀ k ∈ all_combinations,
        (SummaryRow.key ∘ completedRow nMetrics summary) k = id k := by
      intro k _
      exact key_completedRow nMetrics summary k
    rw [List.map_congr_left this, List.map_id]
  · unfold complete_visitor_matrix
    rw [List.length_map]
    decide
  · intro k hk hnone
    have hfind : summary.find?
        (fun r => r.visitor_type_1 = k.1 ∧ r.visitor_type_2 = k.2) = none := by
      rw [List.find?_eq_none]
      intro r hr
      simp only [decide_eq_true_eq, not_and]
      intro h1 h2
      exact hnone r hr (by cases k ; simp [SummaryRow.key, h1, h2])
    have : completedRow nMetrics summary k =
        { visitor_type_1 := k.1, visitor_type_2 := k.2, count_visitors := some 0,
          pct_visitor_type_1 := some 0, pct_visitor_type_2 := some 0,
          metrics := List.replicate nMetrics none } := by
      unfold completedRow
      rw [hfind]
    exact this ▸ List.mem_map_of_mem (completedRow nMetrics summary) hk

/-- C1, witness: completing an empty summary table at schema width 1 yields,
for the pair (Local, Eco-conscious) that had no row, a row with count 0,
percentages 0 and the metric column missing. -/
theorem claim_C1_matrix_completion_witness :
    (("Local", "Eco-conscious") ∈ all_combinations
      ∧ ∀ r ∈ ([] : List SummaryRow), r.key ≠ ("Local", "Eco-conscious"))
    ∧ ({ visitor_type_1 := "Local", visitor_type_2 := "Eco-conscious",
         count_visitors := some 0, pct_visitor_type_1 := some 0,
         pct_visitor_type_2 := some 0, metrics := List.replicate 1 none } : SummaryRow)
        ∈ complete_visitor_matrix 1 [] :=
  ⟨⟨by decide, by simp⟩,
    (claim_C1_matrix_completion 1 []).2.2.2 ("Local", "Eco-conscious")
      (by decide) (by simp)⟩

/-- C5: for any input with a retained record classified "No transport
reported", that label is outside the configured Taxonomy-2 category list,
the record's group row exists in the aggregate table produced by grouping,
yet no row of the completed matrix carries that label — the reindex keeps
only the 9 configured pairs, so such visitors appear in the full-data table
(the retained record list itself, the hypothesis' membership) but in no row
of the final aggregate table. -/
theorem claim_C5_no_transport_dropped (recs : List ClassifiedRec) (t1 : String) (nM : ℕ)
    (h : (some t1, "No transport reported") ∈ recs) :
    "No transport reported" ∉ visitor_type2_categories
    ∧ (t1, "No transport reported") ∈ (calculate_summary recs).map SummaryRow.key
    ∧ ∀ r ∈ complete_visitor_matrix nM (calculate_summary recs),
        r.visitor_type_2 ≠ "No transport reported" := by
  refine ⟨by decide, ?_, ?_⟩
  · have hpair : (t1, "No transport reported") ∈ classifiedPairs recs := by
      unfold classifiedPairs
      exact List.mem_filterMap.mpr ⟨(some t1, "No transport reported"), h, rfl⟩
    have hkey : (t1, "No transport reported") ∈ summary_keys recs := by
      unfold summary_keys
      exact List.mem_dedup.mpr hpair
    unfold calculate_summary
    rw [List.map_map]
    exact List.mem_map.mpr ⟨(t1, "No transport reported"), hkey, rfl⟩
  · intro r hr
    obtain ⟨k, hk, rfl⟩ := List.mem_map.mp hr
    have hkeyk := key_completedRow nM (calculate_summary recs) k
    have h2 : (completedRow nM (calculate_summary recs) k).visitor_type_2 = k.2 := by
      rw [show (completedRow nM (calculate_summary recs) k).visitor_type_2 =
        (completedRow nM (calculate_summary recs) k).key.2 from rfl, hkeyk]
    rw [h2]
    have hmem : k.2 ∈ visitor_type2_categories := mem_listProd_snd hk
    have hall : ∀ s ∈ visitor_type2_categories, s ≠ "No transport reported" := by decide
    exact hall k.2 hmem

/-- C5, witness: a single retained record classified (Local, No transport
reported) produces a group row that the completed matrix drops. -/
theorem claim_C5_no_transport_dropped_witness :
    ((some "Local", "No transport reported") ∈ w5recs)
    ∧ ("No transport reported" ∉ visitor_type2_categories
      ∧ ("Local", "No transport reported") ∈ (calculate_summary w5recs).map SummaryRow.key
      ∧ ∀ r ∈ complete_visitor_matrix 0 (calculate_summary w5recs),
          r.visitor_type_2 ≠ "No transport reported") :=
  ⟨by decide, claim_C5_no_transport_dropped w5recs "Local" 0 (by decide)⟩

theorem classifiedPairs_length_eq (recs : List ClassifiedRec)
    (h : ∀ r ∈ recs, r.1.isSome) :
    (classifiedPairs recs).length = recs.length := by
  induction recs with
  | nil => rfl
  | cons r t ih =>
      cases hr : r.1 with
      | none =>
          exact absurd (h r (List.mem_cons_self r t)) (by simp [hr])
      | some v =>
          have ht := ih (fun x hx => h x (List.mem_cons_of_mem r hx))
          simp only [classifiedPairs, List.filterMap_cons, hr] at ht ⊢
          simp [ht]

theorem map_fst_classifiedPairs (recs : List ClassifiedRec) :
    (classifiedPairs recs).map Prod.fst = recs.filterMap Prod.fst := by
  induction recs with
  | nil => rfl
  | cons r t ih =>
      cases hr : r.1 <;>
        · simp only [classifiedPairs, List.filterMap_cons, hr] at ih ⊢
          simp [ih]

theorem list_sum_map_div_mul {α : Type} (d : List α) (f : α → ℚ) (c k : ℚ) :
    (d.map (fun x => f x / c * k)).sum = (d.map f).sum / c * k := by
  induction d with
  | nil => simp
  | cons x t ih =>
      simp only [List.map_cons, List.sum_cons, ih]
      ring

theorem abs_list_sum_map_sub_le {α : Type} (d : List α) (f g : α → ℚ) (e : ℚ)
    (h : ∀ x ∈ d, |f x - g x| ≤ e) :
    |(d.map f).sum - (d.map g).sum| ≤ (d.length : ℚ) * e := by
  induction d with
  | nil => simp
  | cons x t ih =>
      simp only [List.map_cons, List.sum_cons, List.length_cons]
      have h1 := h x (List.mem_cons_self x t)
      have h2 := ih (fun y hy => h y (List.mem_cons_of_mem x hy))
      have heq : f x + (t.map f).sum - (g x + (t.map g).sum)
          = (f x - g x) + ((t.map f).sum - (t.map g).sum) := by ring
      rw [heq]
      calc |(f x - g x) + ((t.map f).sum - (t.map g).sum)|
          ≤ |f x - g x| + |(t.map f).sum - (t.map g).sum| := abs_add _ _
        _ ≤ e + (t.length : ℚ) * e := add_le_add h1 h2
        _ = ((t.length + 1 : ℕ) : ℚ) * e := by push_cast ; ring

theorem sum_counts_dedup (l : List String) :
    (l.dedup.map (fun v => ((l.count v : ℕ) : ℚ))).sum = (l.length : ℚ) := by
  have h := List.sum_map_count_dedup_eq_length l
  rw [show (fun v => ((l.count v : ℕ) : ℚ)) =
      (fun n : ℕ => (n : ℚ)) ∘ (fun v => l.count v) from rfl]
  rw [← List.map_map, ← Nat.cast_list_sum, h]

theorem round2_of_ne_half (q : ℚ) (n : ℤ)
    (hne : Int.fract (q * 100) ≠ 1 / 2) (h : ⌊q * 100 + 1 / 2⌋ = n) :
    round2 q = (n : ℚ) / 100 := by
  unfold round2 round_half_even
  rw [if_neg hne, round_eq, h]

theorem pct1_cexRecs_Local : pct_visitor_type_1 cexRecs "Local" = 6667 / 100 := by
  unfold pct_visitor_type_1
  have hcount : type1_count cexRecs "Local" = 2 := by decide
  have htot : total_visitors cexRecs = 3 := by decide
  rw [hcount, htot]
  have harg : ((2 : ℕ) : ℚ) / ((3 : ℕ) : ℚ) * 100 = 200 / 3 := by norm_num
  rw [harg]
  rw [round2_of_ne_half (200 / 3) 6667 ?hne ?hfl]
  · norm_num
  case hne =>
    rw [show (200 : ℚ) / 3 * 100 = 20000 / 3 by norm_num, Int.fract,
      show ⌊(20000 : ℚ) / 3⌋ = 6666 by norm_num [Int.floor_eq_iff]]
    norm_num
  case hfl => norm_num [Int.floor_eq_iff]

theorem sumPct1_cexRecs : sumPct1Nonzero (finalTable cexRecs) = 6667 / 50 := by
  have hkeys : summary_keys cexRecs = [("Local", "Standard"), ("Local", "Eco-conscious")] := by
    decide
  have hS : calculate_summary cexRecs =
      [{ visitor_type_1 := "Local", visitor_type_2 := "Standard",
         count_visitors := some 1,
         pct_visitor_type_1 := some (pct_visitor_type_1 cexRecs "Local"),
         pct_visitor_type_2 := some (pct_visitor_type_2 cexRecs ("Local", "Standard")),
         metrics := [] },
       { visitor_type_1 := "Local", visitor_type_2 := "Eco-conscious",
         count_visitors := some 1,
         pct_visitor_type_1 := some (pct_visitor_type_1 cexRecs "Local"),
         pct_visitor_type_2 := some (pct_visitor_type_2 cexRecs ("Local", "Eco-conscious")),
         metrics := [] }] := by
    unfold calculate_summary
    rw [hkeys]
    have h1 : countPair cexRecs ("Local", "Standard") = 1 := by decide
    have h2 : countPair cexRecs ("Local", "Eco-conscious") = 1 := by decide
    simp only [List.map_cons, List.map_nil, h1, h2, Nat.cast_one]
  rw [finalTable, hS]
  simp [complete_visitor_matrix, all_combinations, listProd,
    visitor_type1_categories, visitor_type2_categories,
    completedRow, List.find?, sumPct1Nonzero, List.filter, pct1_cexRecs_Local]
  norm_num

/-- C4, counterexample: on an input with two Local respondents in different
Taxonomy-2 groups and one unclassified respondent, the type-1 percentage
column repeats the Local share (rounded 66.67, not the claimed 100 computed
over classified records only) on both Local rows, and its sum over the rows
with non-zero count is 133.34, not within 0.1 of 100. -/
theorem claim_C4_counterexample :
    ¬ ((∀ r ∈ finalTable cexRecs, r.count_visitors.getD 0 ≠ 0 →
          r.pct_visitor_type_1 =
            some (round2 ((type1_count cexRecs r.visitor_type_1 : ℚ) /
              ((classifiedPairs cexRecs).length : ℚ) * 100)))
       ∧ |sumPct1Nonzero (finalTable cexRecs) - 100| ≤ 1 / 10) := by
  intro hc
  have h := hc.2
  rw [sumPct1_cexRecs] at h
  norm_num [abs_le] at h

/-- C4 (amended): when every retained record is classified under Taxonomy-1
(so the grand total of classified records equals the retained total the code
divides by) and the Taxonomy-1 labels come from the configured categories,
each non-empty row's type-1 percentage equals the Taxonomy-1 group's total
visitor count divided by the grand total of classified records times 100
(rounded to 2 decimals), and the sum of the type-1 percentages over the
distinct Taxonomy-1 values — each counted once, not once per row — is within
0.1 of 100. -/
theorem claim_C4_percentages (recs : List ClassifiedRec)
    (hclass : ∀ r ∈ recs, r.1.isSome)
    (hcat : ∀ r ∈ recs, ∀ v, r.1 = some v → v ∈ visitor_type1_categories)
    (hne : recs ≠ []) :
    (∀ r ∈ finalTable recs, r.count_visitors.getD 0 ≠ 0 →
      r.pct_visitor_type_1 =
        some (round2 ((type1_count recs r.visitor_type_1 : ℚ) /
          ((classifiedPairs recs).length : ℚ) * 100)))
    ∧ |((type1_values recs).map (fun v =>
          round2 ((type1_count recs v : ℚ) /
            ((classifiedPairs recs).length : ℚ) * 100))).sum - 100| ≤ 1 / 10 := by
  have hcp : (classifiedPairs recs).length = (recs.filterMap Prod.fst).length := by
    rw [← map_fst_classifiedPairs recs, List.length_map]
  have hlen : (recs.filterMap Prod.fst).length = recs.length := by
    rw [← hcp, classifiedPairs_length_eq recs hclass]
  have hne0 : ((recs.filterMap Prod.fst).length : ℚ) ≠ 0 := by
    rw [hlen]
    exact Nat.cast_ne_zero.mpr (fun h0 => hne (List.length_eq_zero.mp h0))
  constructor
  · intro r hr hcnt
    unfold finalTable complete_visitor_matrix at hr
    obtain ⟨k, hk, rfl⟩ := List.mem_map.mp hr
    cases hfind : (calculate_summary recs).find?
        (fun row => row.visitor_type_1 = k.1 ∧ row.visitor_type_2 = k.2) with
    | none =>
        exfalso
        apply hcnt
        show (completedRow 0 (calculate_summary recs) k).count_visitors.getD 0 = 0
        unfold completedRow
        rw [hfind]
        rfl
    | some row =>
        have hmem := List.mem_of_find?_eq_some hfind
        unfold calculate_summary at hmem
        obtain ⟨k0, hk0, rfl⟩ := List.mem_map.mp hmem
        have hrow : completedRow 0 (calculate_summary recs) k =
            { visitor_type_1 := k0.1, visitor_type_2 := k0.2,
              count_visitors := some ((some ((countPair recs k0 : ℕ) : ℚ)).getD 0),
              pct_visitor_type_1 := some ((some (pct_visitor_type_1 recs k0.1)).getD 0),
              pct_visitor_type_2 := some ((some (pct_visitor_type_2 recs k0)).getD 0),
              metrics := [] } := by
          unfold completedRow
          rw [hfind]
        rw [hrow]
        simp only [Option.getD_some]
        unfold pct_visitor_type_1 total_visitors
        rw [hcp, hlen]
  · simp only [type1_values, type1_count, show ((classifiedPairs recs).length : ℚ) =
      ((recs.filterMap Prod.fst).length : ℚ) from congrArg Nat.cast hcp]
    have hexact : ((recs.filterMap Prod.fst).dedup.map
        (fun v => (((recs.filterMap Prod.fst).count v : ℕ) : ℚ) /
          ((recs.filterMap Prod.fst).length : ℚ) * 100)).sum = 100 := by
      rw [list_sum_map_div_mul, sum_counts_dedup, div_self hne0, one_mul]
    have herr := abs_list_sum_map_sub_le (recs.filterMap Prod.fst).dedup
      (fun v => round2 ((((recs.filterMap Prod.fst).count v : ℕ) : ℚ) /
        ((recs.filterMap Prod.fst).length : ℚ) * 100))
      (fun v => (((recs.filterMap Prod.fst).count v : ℕ) : ℚ) /
        ((recs.filterMap Prod.fst).length : ℚ) * 100)
      (1 / 200) (fun x _ => abs_round2_sub _)
    have hnodup := List.nodup_dedup (recs.filterMap Prod.fst)
    have hsubset : (recs.filterMap Prod.fst).dedup.toFinset ⊆
        visitor_type1_categories.toFinset := by
      intro v hv
      rw [List.mem_toFinset] at hv ⊢
      obtain ⟨r, hr, hsome⟩ := List.mem_filterMap.mp (List.mem_dedup.mp hv)
      exact hcat r hr v hsome
    have hd3nat : (recs.filterMap Prod.fst).dedup.length ≤ 3 := by
      rw [← List.toFinset_card_of_nodup hnodup]
      calc (recs.filterMap Prod.fst).dedup.toFinset.card
          ≤ visitor_type1_categories.toFinset.card := Finset.card_le_card hsubset
        _ = 3 := by decide
    have hd3 : (((recs.filterMap Prod.fst).dedup.length : ℕ) : ℚ) ≤ 3 := by
      exact_mod_cast hd3nat
    calc |((recs.filterMap Prod.fst).dedup.map
            (fun v => round2 ((((recs.filterMap Prod.fst).count v : ℕ) : ℚ) /
              ((recs.filterMap Prod.fst).length : ℚ) * 100))).sum - 100|
        = |((recs.filterMap Prod.fst).dedup.map
            (fun v => round2 ((((recs.filterMap Prod.fst).count v : ℕ) : ℚ) /
              ((recs.filterMap Prod.fst).length : ℚ) * 100))).sum -
           ((recs.filterMap Prod.fst).dedup.map
            (fun v => (((recs.filterMap Prod.fst).count v : ℕ) : ℚ) /
              ((recs.filterMap Prod.fst).length : ℚ) * 100)).sum| := by rw [hexact]
      _ ≤ ((recs.filterMap Prod.fst).dedup.length : ℚ) * (1 / 200) := herr
      _ ≤ 3 * (1 / 200) := mul_le_mul_of_nonneg_right hd3 (by norm_num)
      _ ≤ 1 / 10 := by norm_num

/-- C4, witness: on a two-record input, one International and one Local
respondent, the hypotheses hold and the distinct-value sum of type-1
percentages is within 0.1 of 100 (here 50 + 50 exactly). -/
theorem claim_C4_percentages_witness :
    (∀ r ∈ w4recs, r.1.isSome) ∧ w4recs ≠ []
    ∧ |((type1_values w4recs).map (fun v =>
          round2 ((type1_count w4recs v : ℚ) /
            ((classifiedPairs w4recs).length : ℚ) * 100))).sum - 100| ≤ 1 / 10 :=
  ⟨by decide, by decide,
    (claim_C4_percentages w4recs (by decide)
      (by intro r hr v hv; fin_cases hr <;> simp_all [visitor_type1_categories])
      (by decide)).2⟩

theorem getColVals_setCol_self (t : ColTable) (name : String) (vals : List (Option ℚ)) :
    getColVals (setCol t name vals) name = some vals := by
  induction t with
  | nil => simp [setCol, getColVals]
  | cons p rest ih =>
      obtain ⟨n, v⟩ := p
      by_cases hn : n = name <;> simp [setCol, getColVals, hn, ih]

theorem getColVals_setCol_ne (t : ColTable) (name : String) (vals : List (Option ℚ))
    (other : String) (h : other ≠ name) :
    getColVals (setCol t name vals) other = getColVals t other := by
  induction t with
  | nil =>
      have hno : ¬ name = other := fun hh => h hh.symm
      simp [setCol, getColVals, hno]
  | cons p rest ih =>
      obtain ⟨n, v⟩ := p
      by_cases hn : n = name
      · subst hn
        have hno : ¬ n = other := fun hh => h hh.symm
        simp [setCol, getColVals, hno]
      · simp [setCol, getColVals, hn, ih]

theorem getCell_setCol_ne (t : ColTable) (name : String) (vals : List (Option ℚ))
    (c : String) (i : ℕ) (h : c ≠ name) :
    getCell (setCol t name vals) c i = getCell t c i := by
  unfold getCell
  rw [getColVals_setCol_ne t name vals c h]

theorem groupedColumn_setCol_ne (nRows : ℕ) (t : ColTable) (name : String)
    (vals : List (Option ℚ)) (srcs : List String) (h : ¬ name ∈ srcs) :
    groupedColumn nRows (setCol t name vals) srcs = groupedColumn nRows t srcs := by
  unfold groupedColumn
  have hfilt : srcs.filter (fun c => (getColVals (setCol t name vals) c).isSome) =
      srcs.filter (fun c => (getColVals t c).isSome) := by
    apply List.filter_congr
    intro c hc
    rw [getColVals_setCol_ne t name vals c (fun hh => h (hh ▸ hc))]
  rw [hfilt]
  by_cases hemp : (srcs.filter (fun c => (getColVals t c).isSome)).isEmpty
  · rw [if_pos hemp, if_pos hemp]
  · rw [if_neg hemp, if_neg hemp]
    apply List.map_congr_left
    intro i _
    congr 1
    apply List.map_congr_left
    intro c hc
    have hcs : c ∈ srcs := List.mem_of_mem_filter hc
    exact getCell_setCol_ne t name vals c i (fun hh => h (hh ▸ hcs))

/-- C8: for each of the five consolidation groupings, the bucket column the
accommodation consolidation produces equals the row-wise unweighted mean of
the bucket's constituent mean-nights columns that exist in the input table —
a mean of group means, not a record-weighted mean — and when none of the
bucket's source columns exist the bucket column is entirely missing. -/
theorem claim_C8_accommodation_buckets (nRows : ℕ) (t : ColTable)
    (g : String × List String) (hg : g ∈ groupings) :
    getColVals (group_accommodation_categories nRows t) g.1 =
      some (groupedColumn nRows t g.2)
    ∧ ((∀ c ∈ g.2, getColVals t c = none) →
        getColVals (group_accommodation_categories nRows t) g.1 =
          some (List.replicate nRows none)) := by
  have hmain : getColVals (group_accommodation_categories nRows t) g.1 =
      some (groupedColumn nRows t g.2) := by
    simp only [groupings, List.mem_cons, List.not_mem_nil, or_false] at hg
    simp only [group_accommodation_categories, groupings, List.foldl_cons, List.foldl_nil,
      applyGrouping]
    rcases hg with rfl | rfl | rfl | rfl | rfl
    · rw [getColVals_setCol_ne _ _ _ _ (by decide), getColVals_setCol_ne _ _ _ _ (by decide),
        getColVals_setCol_ne _ _ _ _ (by decide), getColVals_setCol_ne _ _ _ _ (by decide),
        getColVals_setCol_self]
    · rw [getColVals_setCol_ne _ _ _ _ (by decide), getColVals_setCol_ne _ _ _ _ (by decide),
        getColVals_setCol_ne _ _ _ _ (by decide), getColVals_setCol_self,
        groupedColumn_setCol_ne _ _ _ _ _ (by decide)]
    · rw [getColVals_setCol_ne _ _ _ _ (by decide), getColVals_setCol_ne _ _ _ _ (by decide),
        getColVals_setCol_self, groupedColumn_setCol_ne _ _ _ _ _ (by decide),
        groupedColumn_setCol_ne _ _ _ _ _ (by decide)]
    · rw [getColVals_setCol_ne _ _ _ _ (by decide), getColVals_setCol_self,
        groupedColumn_setCol_ne _ _ _ _ _ (by decide),
        groupedColumn_setCol_ne _ _ _ _ _ (by decide),
        groupedColumn_setCol_ne _ _ _ _ _ (by decide)]
    · rw [getColVals_setCol_self, groupedColumn_setCol_ne _ _ _ _ _ (by decide),
        groupedColumn_setCol_ne _ _ _ _ _ (by decide),
        groupedColumn_setCol_ne _ _ _ _ _ (by decide),
        groupedColumn_setCol_ne _ _ _ _ _ (by decide)]
  refine ⟨hmain, fun hnone => ?_⟩
  rw [hmain]
  have hfilt : g.2.filter (fun c => (getColVals t c).isSome) = [] := by
    rw [List.filter_eq_nil_iff]
    intro c hc
    rw [hnone c hc]
    simp
  unfold groupedColumn
  rw [hfilt]
  rfl

/-- C8, witness: on an empty table none of the Airbnb bucket's source columns
exist, and the consolidation yields an all-missing Airbnb column. -/
theorem claim_C8_accommodation_buckets_witness :
    airbnbGrouping ∈ groupings
    ∧ (∀ c ∈ airbnbGrouping.2, getColVals ([] : ColTable) c = none)
    ∧ getColVals (group_accommodation_categories 1 []) airbnbGrouping.1 =
        some (List.replicate 1 none) :=
  ⟨by decide, by decide,
    (claim_C8_accommodation_buckets 1 [] airbnbGrouping (by decide)).2 (by decide)⟩
